import Mathlib

/-!
Formal model of the scenario computation engine of
`src/export_static_preview.py` (climate_health_mnch_dashboard).

Python floats are modelled by `ℝ`, Python ints by `ℤ`, Python `range` by
`List.range` composed with an offset map (empty when the span is not
positive), Python dict indexing (which raises `KeyError` on a missing key)
by `List.lookup` into an association list returning `Option`, and the
float `**` operator by `Real.rpow` (`Monoid.npow` where the source exponent
is the integer loop index).  Python `round` (banker's rounding, half to
even) is modelled by `roundHalfEven`; `round(x, 2)` by `pyRound2`.
-/

/-- One row of the `mnch_outcomes` table (source lines 16-35). -/
structure OutcomeProfile where
  odds_ratio : ℝ
  current_rate : ℝ
  cost_per_case : ℝ
  ci_lower : ℝ
  ci_upper : ℝ

/-- The `mnch_outcomes` reference table, source lines 16-35.
Field order in each row: odds_ratio, current_rate, cost_per_case,
ci_lower, ci_upper. -/
noncomputable def mnch_outcomes : List (String × OutcomeProfile) :=
  [("Gestational Diabetes", ⟨1.07, 0.05, 2000, 1.01, 1.54⟩),
   ("Hypertension during Pregnancy", ⟨1.12, 0.1, 1500, 1.03, 1.21⟩),
   ("Maternal Admission", ⟨1.01, 0.02, 1000, 1.00, 1.03⟩),
   ("Infections", ⟨1.29, 0.02, 800, 1.05, 1.58⟩),
   ("Prelabour Rupture of Membranes", ⟨1.08, 0.02, 1200, 1.07, 1.09⟩),
   ("Antenatal Bleeding", ⟨1.16, 0.005, 2500, 1.13, 1.40⟩),
   ("Cardiovascular Event", ⟨1.11, 0.01, 3000, 1.06, 1.15⟩),
   ("Stillbirth", ⟨1.14, 0.005, 5000, 0.99, 1.32⟩),
   ("Congenital Anomalies", ⟨1.13, 0.02, 10000, 0.99, 1.85⟩),
   ("Spontaneous Abortion", ⟨1.31, 0.01, 5000, 0.99, 3.30⟩),
   ("Non-reassuring Fetal Status", ⟨1.21, 0.02, 800, 1.12, 1.32⟩),
   ("Composite Outcome", ⟨1.42, 0.1, 2000, 1.00, 2.03⟩),
   ("Preterm Birth", ⟨1.04, 0.1, 32000, 1.03, 1.06⟩),
   ("Low Birth Weight", ⟨1.13, 0.08, 800, 1.02, 1.26⟩),
   ("Small for Gestational Age", ⟨1.10, 0.02, 800, 1.02, 1.18⟩),
   ("Neonatal Admission", ⟨1.22, 0.02, 1500, 1.02, 1.43⟩),
   ("Neonatal Morbidity", ⟨1.04, 0.02, 800, 1.03, 1.06⟩),
   ("Obstetric Complication", ⟨1.05, 0.1, 1500, 1.03, 1.06⟩)]

/-- The `rcp_scenarios` table, source lines 37-42. -/
noncomputable def rcp_scenarios : List (String × ℝ) :=
  [("RCP 2.6", 1.5), ("RCP 4.5", 2.4), ("RCP 6.0", 3.0), ("RCP 8.5", 4.3)]

/-- The `population_growth_rates` table, source lines 44-48. -/
noncomputable def population_growth_rates : List (String × ℝ) :=
  [("Low Growth", 0.01), ("Medium Growth", 0.02), ("High Growth", 0.03)]

/-- The `pregnancy_growth_rates` table, source lines 50-57. -/
noncomputable def pregnancy_growth_rates : List (String × ℝ) :=
  [("High Reduction", -0.15), ("Medium Reduction", -0.1), ("Low Reduction", -0.05),
   ("Low Growth", 0.01), ("Medium Growth", 0.02), ("High Growth", 0.03)]

/-- Python `range(a, b)`: the integers `a, a+1, ..., b-1`, empty when `b ≤ a`. -/
def pythonRange (a b : ℤ) : List ℤ :=
  (List.range (b - a).toNat).map (fun (i : ℕ) => a + (i : ℤ))

/-- Source lines 60-61: compound population growth,
`[initial_population * (1 + growth_rate) ** year for year in range(num_years)]`.
A non-positive `num_years` gives the empty list, as Python `range` does. -/
noncomputable def calculate_population_growth
    (initial_population growth_rate : ℝ) (num_years : ℤ) : List ℝ :=
  (List.range num_years.toNat).map (fun year => initial_population * (1 + growth_rate) ^ year)

/-- Source lines 63-64: `[pop * pregnancy_rate for pop in population]`. -/
noncomputable def calculate_pregnancies (population : List ℝ) (pregnancy_rate : ℝ) : List ℝ :=
  population.map (fun pop => pop * pregnancy_rate)

/-- Source lines 66-69: linear temperature ramp anchored at the constant 2024,
`annual_increase * (year - 2024)` for `year in range(start_year, end_year + 1)`
with `annual_increase = temp_increase_2100 / (2100 - 2024)`. -/
noncomputable def calculate_temperature_increase_per_year
    (temp_increase_2100 : ℝ) (start_year end_year : ℤ) : List ℝ :=
  let total_years : ℝ := 2100 - 2024
  let annual_increase := temp_increase_2100 / total_years
  (pythonRange start_year (end_year + 1)).map
    (fun (year : ℤ) => annual_increase * ((year : ℝ) - 2024))

/-- The eight parallel series returned by
`calculate_additional_outcomes_and_costs` (source line 111), in return order. -/
structure ProjectionResult where
  selected_years : List ℤ
  effective_additional_outcomes : List ℝ
  costs : List ℝ
  additional_outcomes : List ℝ
  effective_additional_outcomes_lower : List ℝ
  effective_additional_outcomes_upper : List ℝ
  costs_lower : List ℝ
  costs_upper : List ℝ

/-- Source lines 90-111: the body of `calculate_additional_outcomes_and_costs`
after the reference-table lookups of lines 81-88 have been resolved to the
profile fields and the three rates. -/
noncomputable def projectCore (profile : OutcomeProfile)
    (temp_increase_2100 population_growth_rate pregnancy_growth_rate : ℝ)
    (time_period : ℤ × ℤ)
    (current_population initial_pregnancy_rate adaptation_effectiveness : ℝ) :
    ProjectionResult :=
  let odds_ratio := profile.odds_ratio
  let ci_lower := profile.ci_lower
  let ci_upper := profile.ci_upper
  let current_rate := profile.current_rate
  let cost_per_case := profile.cost_per_case
  let start_year := time_period.1
  let end_year := time_period.2
  let num_years := end_year - start_year + 1
  let selected_years := pythonRange start_year (end_year + 1)
  let population_growth_selected :=
    calculate_population_growth current_population population_growth_rate num_years
  let pregnancies :=
    calculate_pregnancies population_growth_selected
      (initial_pregnancy_rate * (1 + pregnancy_growth_rate))
  let baseline_outcomes := pregnancies.map (fun preg => preg * current_rate)
  let temperature_increase_per_year :=
    calculate_temperature_increase_per_year temp_increase_2100 start_year end_year
  let projected_rates :=
    temperature_increase_per_year.map (fun temp_increase => current_rate * odds_ratio ^ temp_increase)
  let projected_outcomes := (projected_rates.zip pregnancies).map (fun rp => rp.1 * rp.2)
  let additional_outcomes := (projected_outcomes.zip baseline_outcomes).map (fun pb => pb.1 - pb.2)
  let effective_additional_outcomes :=
    additional_outcomes.map (fun o => o * (1 - adaptation_effectiveness / 100))
  let effective_additional_outcomes_lower :=
    additional_outcomes.map (fun o => o * (1 - adaptation_effectiveness / 100) * ci_lower / odds_ratio)
  let effective_additional_outcomes_upper :=
    additional_outcomes.map (fun o => o * (1 - adaptation_effectiveness / 100) * ci_upper / odds_ratio)
  let costs := effective_additional_outcomes.map (fun o => o * cost_per_case)
  let costs_lower := effective_additional_outcomes_lower.map (fun o => o * cost_per_case)
  let costs_upper := effective_additional_outcomes_upper.map (fun o => o * cost_per_case)
  ⟨selected_years, effective_additional_outcomes, costs, additional_outcomes,
   effective_additional_outcomes_lower, effective_additional_outcomes_upper,
   costs_lower, costs_upper⟩

/-- Source lines 71-111: `calculate_additional_outcomes_and_costs`.  The four
dict lookups of lines 81-88 raise Python `KeyError` on a missing key, modelled
as `none`; on success the series of lines 90-111 (`projectCore`) are returned. -/
noncomputable def calculate_additional_outcomes_and_costs
    (outcome rcp_scenario population_growth_curve pregnancy_growth_curve : String)
    (time_period : ℤ × ℤ)
    (current_population initial_pregnancy_rate adaptation_effectiveness : ℝ) :
    Option ProjectionResult := do
  let profile ← List.lookup outcome mnch_outcomes
  let temp_increase_2100 ← List.lookup rcp_scenario rcp_scenarios
  let population_growth_rate ← List.lookup population_growth_curve population_growth_rates
  let pregnancy_growth_rate ← List.lookup pregnancy_growth_curve pregnancy_growth_rates
  return projectCore profile temp_increase_2100 population_growth_rate pregnancy_growth_rate
    time_period current_population initial_pregnancy_rate adaptation_effectiveness

/-- Source line 113-114: `calculate_attributable_fraction`. -/
noncomputable def calculate_attributable_fraction (odds_ratio : ℝ) : ℝ :=
  (odds_ratio - 1) / odds_ratio

/-- The four derived comparison series of source lines 148-151. -/
structure ComparisonResult where
  mitigation_savings : List ℝ
  adaptation_savings : List ℝ
  mitigation_prevented : List ℝ
  adaptation_prevented : List ℝ

/-- Source lines 129-151: the scenario comparison.  Runs the engine on the
caller's request (line 129), on the worst case `RCP 8.5` with adaptation `0`
(lines 141-143), and on the caller's climate scenario with adaptation `0`
(lines 144-146), then differences the series pairwise (lines 148-151).  Note
that, as in the source, `mitigation_prevented` and `adaptation_prevented`
subtract the selected run's `eff_add_outcomes` (the adaptation-adjusted
second return component), while the worst-case operand is `worst_add` (the
uncapped fourth component) and the zero-adaptation operand is
`zero_adapt_outcomes` (that run's second component). -/
noncomputable def compare_scenarios
    (outcome rcp_scenario population_growth_curve pregnancy_growth_curve : String)
    (time_period : ℤ × ℤ)
    (current_population initial_pregnancy_rate adaptation_effectiveness : ℝ) :
    Option ComparisonResult := do
  let selected ← calculate_additional_outcomes_and_costs outcome rcp_scenario
    population_growth_curve pregnancy_growth_curve time_period
    current_population initial_pregnancy_rate adaptation_effectiveness
  let worst ← calculate_additional_outcomes_and_costs outcome "RCP 8.5"
    population_growth_curve pregnancy_growth_curve time_period
    current_population initial_pregnancy_rate 0
  let zero_adapt ← calculate_additional_outcomes_and_costs outcome rcp_scenario
    population_growth_curve pregnancy_growth_curve time_period
    current_population initial_pregnancy_rate 0
  return ⟨(worst.costs.zip selected.costs).map (fun wc => wc.1 - wc.2),
          (zero_adapt.costs.zip selected.costs).map (fun zc => zc.1 - zc.2),
          (worst.additional_outcomes.zip selected.effective_additional_outcomes).map
            (fun ws => ws.1 - ws.2),
          (zero_adapt.effective_additional_outcomes.zip
            selected.effective_additional_outcomes).map (fun zs => zs.1 - zs.2)⟩

/-- Python 3 `round(x)`: round half to even, returning an integer. -/
noncomputable def roundHalfEven (x : ℝ) : ℤ :=
  if Int.fract x < 1 / 2 then ⌊x⌋
  else if Int.fract x = 1 / 2 then (if Even ⌊x⌋ then ⌊x⌋ else ⌊x⌋ + 1)
  else ⌊x⌋ + 1

/-- Python `round(x, 2)`: round to two decimal places (half to even), on the
idealized exact value. -/
noncomputable def pyRound2 (x : ℝ) : ℝ :=
  (roundHalfEven (x * 100) : ℝ) / 100

/-- The scalar indicators of source lines 154-163. -/
structure Indicators where
  total_additional_outcomes : ℤ
  total_cost : ℝ
  total_mitigation_savings : ℝ
  total_adaptation_savings : ℝ
  total_mitigation_prevented : ℤ
  total_adaptation_prevented : ℤ
  attrib_frac : ℝ

/-- Source lines 154-163: the summary reduction.
`total_additional_outcomes = int(round(sum(eff_add_outcomes)))`,
`_total_cost = round(sum(costs), 2)`,
`_total_mitigation_savings = round(sum(mitigation_savings), 2)`,
`_total_adaptation_savings = round(sum(adaptation_savings), 2)`,
`_total_mitigation_prevented = int(round(sum(mitigation_prevented)))`,
`_total_adaptation_prevented = int(round(sum(adaptation_prevented)))`,
`attrib_frac = calculate_attributable_fraction(odds_ratio)`. -/
noncomputable def summarize (r : ProjectionResult) (c : ComparisonResult)
    (odds_ratio : ℝ) : Indicators :=
  ⟨roundHalfEven r.effective_additional_outcomes.sum,
   pyRound2 r.costs.sum,
   pyRound2 c.mitigation_savings.sum,
   pyRound2 c.adaptation_savings.sum,
   roundHalfEven c.mitigation_prevented.sum,
   roundHalfEven c.adaptation_prevented.sum,
   calculate_attributable_fraction odds_ratio⟩

/-- The `Preterm Birth` row of `mnch_outcomes` (source line 29), the default
outcome of the preview (source line 118). -/
noncomputable def pretermProfile : OutcomeProfile := ⟨1.04, 0.1, 32000, 1.03, 1.06⟩

/-! ### Structural lemmas about the engine -/

theorem pythonRange_length (a b : ℤ) : (pythonRange a b).length = (b - a).toNat := by
  rw [pythonRange, List.length_map, List.length_range]

theorem pythonRange_getElem (a b : ℤ) (j : ℕ) (h : j < (pythonRange a b).length) :
    (pythonRange a b)[j] = a + (j : ℤ) := by
  simp [pythonRange]

theorem projectCore_selected_years (p : OutcomeProfile) (t pg pr : ℝ) (s e : ℤ) (cp r0 a : ℝ) :
    (projectCore p t pg pr (s, e) cp r0 a).selected_years = pythonRange s (e + 1) := rfl

theorem projectCore_years_length (p : OutcomeProfile) (t pg pr : ℝ) (s e : ℤ) (cp r0 a : ℝ) :
    (projectCore p t pg pr (s, e) cp r0 a).selected_years.length = (e - s + 1).toNat := by
  rw [projectCore_selected_years, pythonRange_length]
  omega

theorem projectCore_additional_length (p : OutcomeProfile) (t pg pr : ℝ) (s e : ℤ)
    (cp r0 a : ℝ) :
    (projectCore p t pg pr (s, e) cp r0 a).additional_outcomes.length = (e - s + 1).toNat := by
  simp [projectCore, calculate_temperature_increase_per_year, calculate_population_growth,
    calculate_pregnancies, pythonRange]
  omega

theorem projectCore_additional_getElem (p : OutcomeProfile) (t pg pr : ℝ) (s e : ℤ)
    (cp r0 a : ℝ) (j : ℕ)
    (h : j < (projectCore p t pg pr (s, e) cp r0 a).additional_outcomes.length) :
    (projectCore p t pg pr (s, e) cp r0 a).additional_outcomes[j] =
      p.current_rate * p.odds_ratio ^ (t / (2100 - 2024) * (((s : ℝ) + (j : ℝ)) - 2024)) *
        (cp * (1 + pg) ^ j * (r0 * (1 + pr))) -
      cp * (1 + pg) ^ j * (r0 * (1 + pr)) * p.current_rate := by
  simp [projectCore, calculate_temperature_increase_per_year, calculate_population_growth,
    calculate_pregnancies, pythonRange]
  try push_cast

theorem projectCore_effective_eq (p : OutcomeProfile) (t pg pr : ℝ) (tp : ℤ × ℤ)
    (cp r0 a : ℝ) :
    (projectCore p t pg pr tp cp r0 a).effective_additional_outcomes =
      (projectCore p t pg pr tp cp r0 a).additional_outcomes.map
        (fun o => o * (1 - a / 100)) := rfl

theorem projectCore_lower_eq (p : OutcomeProfile) (t pg pr : ℝ) (tp : ℤ × ℤ)
    (cp r0 a : ℝ) :
    (projectCore p t pg pr tp cp r0 a).effective_additional_outcomes_lower =
      (projectCore p t pg pr tp cp r0 a).additional_outcomes.map
        (fun o => o * (1 - a / 100) * p.ci_lower / p.odds_ratio) := rfl

theorem projectCore_upper_eq (p : OutcomeProfile) (t pg pr : ℝ) (tp : ℤ × ℤ)
    (cp r0 a : ℝ) :
    (projectCore p t pg pr tp cp r0 a).effective_additional_outcomes_upper =
      (projectCore p t pg pr tp cp r0 a).additional_outcomes.map
        (fun o => o * (1 - a / 100) * p.ci_upper / p.odds_ratio) := rfl

theorem projectCore_costs_eq (p : OutcomeProfile) (t pg pr : ℝ) (tp : ℤ × ℤ)
    (cp r0 a : ℝ) :
    (projectCore p t pg pr tp cp r0 a).costs =
      (projectCore p t pg pr tp cp r0 a).effective_additional_outcomes.map
        (fun o => o * p.cost_per_case) := rfl

theorem projectCore_costs_lower_eq (p : OutcomeProfile) (t pg pr : ℝ) (tp : ℤ × ℤ)
    (cp r0 a : ℝ) :
    (projectCore p t pg pr tp cp r0 a).costs_lower =
      (projectCore p t pg pr tp cp r0 a).effective_additional_outcomes_lower.map
        (fun o => o * p.cost_per_case) := rfl

theorem projectCore_costs_upper_eq (p : OutcomeProfile) (t pg pr : ℝ) (tp : ℤ × ℤ)
    (cp r0 a : ℝ) :
    (projectCore p t pg pr tp cp r0 a).costs_upper =
      (projectCore p t pg pr tp cp r0 a).effective_additional_outcomes_upper.map
        (fun o => o * p.cost_per_case) := rfl

theorem projectCore_additional_indep (p : OutcomeProfile) (t pg pr : ℝ) (tp : ℤ × ℤ)
    (cp r0 a a' : ℝ) :
    (projectCore p t pg pr tp cp r0 a).additional_outcomes =
      (projectCore p t pg pr tp cp r0 a').additional_outcomes := rfl

theorem calculate_eq_some_iff (o rc pc gc : String) (tp : ℤ × ℤ) (cp r0 a : ℝ)
    (r : ProjectionResult) :
    calculate_additional_outcomes_and_costs o rc pc gc tp cp r0 a = some r ↔
      ∃ p t pg pr, List.lookup o mnch_outcomes = some p ∧
        List.lookup rc rcp_scenarios = some t ∧
        List.lookup pc population_growth_rates = some pg ∧
        List.lookup gc pregnancy_growth_rates = some pr ∧
        r = projectCore p t pg pr tp cp r0 a := by
  cases h1 : List.lookup o mnch_outcomes <;>
    cases h2 : List.lookup rc rcp_scenarios <;>
      cases h3 : List.lookup pc population_growth_rates <;>
        cases h4 : List.lookup gc pregnancy_growth_rates <;>
          simp [calculate_additional_outcomes_and_costs, h1, h2, h3, h4, eq_comm]

theorem calculate_population_growth_length (cp pg : ℝ) (n : ℤ) :
    (calculate_population_growth cp pg n).length = n.toNat := by
  rw [calculate_population_growth, List.length_map, List.length_range]

theorem calculate_pregnancies_length (l : List ℝ) (rate : ℝ) :
    (calculate_pregnancies l rate).length = l.length := by
  rw [calculate_pregnancies, List.length_map]

theorem calculate_temperature_length (t : ℝ) (s e : ℤ) :
    (calculate_temperature_increase_per_year t s e).length = (e + 1 - s).toNat := by
  rw [calculate_temperature_increase_per_year]
  simpa using pythonRange_length s (e + 1)

/-- Claim C3: for every projection run and every index `i`, the pregnancy
series satisfies `pregnancies[i] = population[i] * (initialPregnancyRate *
(1 + pregnancyGrowthRate))` — the pregnancy growth rate enters exactly once,
as the same flat multiplier on the rate for every year — while
`population[i] = currentPopulation * (1 + popGrowthRate) ^ i` compounds per
year.  The third conjunct ties this to the run: `projectCore` (the body of
`calculate_additional_outcomes_and_costs`) builds its year-`i` additional
outcomes from exactly this pregnancy value (source lines 94-95). -/
theorem claim_C3 (cp pg pr r0 : ℝ) (p : OutcomeProfile) (t a : ℝ) (s e : ℤ) (j : ℕ)
    (hpop : j < (calculate_population_growth cp pg (e - s + 1)).length)
    (hpreg : j < (calculate_pregnancies (calculate_population_growth cp pg (e - s + 1))
      (r0 * (1 + pr))).length)
    (hadd : j < (projectCore p t pg pr (s, e) cp r0 a).additional_outcomes.length) :
    (calculate_population_growth cp pg (e - s + 1))[j] = cp * (1 + pg) ^ j ∧
    (calculate_pregnancies (calculate_population_growth cp pg (e - s + 1)) (r0 * (1 + pr)))[j] =
      (calculate_population_growth cp pg (e - s + 1))[j] * (r0 * (1 + pr)) ∧
    (projectCore p t pg pr (s, e) cp r0 a).additional_outcomes[j] =
      p.current_rate * p.odds_ratio ^ (t / (2100 - 2024) * (((s : ℝ) + (j : ℝ)) - 2024)) *
        (calculate_pregnancies (calculate_population_growth cp pg (e - s + 1))
          (r0 * (1 + pr)))[j] -
      (calculate_pregnancies (calculate_population_growth cp pg (e - s + 1))
          (r0 * (1 + pr)))[j] * p.current_rate := by
  refine ⟨?_, ?_, ?_⟩
  · simp [calculate_population_growth]
  · simp [calculate_pregnancies, calculate_population_growth]
  · rw [projectCore_additional_getElem]
    simp [calculate_pregnancies, calculate_population_growth]
    try ring

/-- Witness for C3 at the preview's default inputs, year index 1. -/
theorem claim_C3_witness :
    1 < (calculate_population_growth 7000000000 0.02 (2030 - 2024 + 1)).length ∧
    (calculate_population_growth 7000000000 0.02 (2030 - 2024 + 1)).getD 1 0 =
      7000000000 * (1 + 0.02) ^ 1 ∧
    (calculate_pregnancies (calculate_population_growth 7000000000 0.02 (2030 - 2024 + 1))
      (0.02 * (1 + 0.02))).getD 1 0 =
      (calculate_population_growth 7000000000 0.02 (2030 - 2024 + 1)).getD 1 0 *
        (0.02 * (1 + 0.02)) := by
  have hpop : 1 < (calculate_population_growth 7000000000 0.02 ((2030 : ℤ) - 2024 + 1)).length := by
    rw [calculate_population_growth_length]; norm_num
  have hpreg : 1 < (calculate_pregnancies
      (calculate_population_growth 7000000000 0.02 ((2030 : ℤ) - 2024 + 1))
      (0.02 * (1 + 0.02))).length := by
    rw [calculate_pregnancies_length, calculate_population_growth_length]; norm_num
  have hadd : 1 < (projectCore pretermProfile 1.5 0.02 0.02 ((2024 : ℤ), (2030 : ℤ))
      7000000000 0.02 50).additional_outcomes.length := by
    rw [projectCore_additional_length]; norm_num
  obtain ⟨h1, h2, -⟩ :=
    claim_C3 7000000000 0.02 0.02 0.02 pretermProfile 1.5 50 2024 2030 1 hpop hpreg hadd
  refine ⟨hpop, ?_, ?_⟩
  · rw [List.getD_eq_getElem _ _ hpop]
    exact h1
  · rw [List.getD_eq_getElem _ _ hpreg, List.getD_eq_getElem _ _ hpop]
    exact h2

/-- Claim C4: the per-year temperature increase is the fixed linear ramp
`tempIncrease[y] = (temp2100 / (2100 - 2024)) * (y - 2024)` with `y = s + j`,
anchored at the constant reference year 2024 regardless of the request's
`startYear`; entries for years before 2024 are negative (for a positive
`temp2100`) and the entry for year 2024 is exactly 0. -/
theorem claim_C4 (t : ℝ) (s e : ℤ) (j : ℕ)
    (h : j < (calculate_temperature_increase_per_year t s e).length) :
    (calculate_temperature_increase_per_year t s e)[j] =
      t / (2100 - 2024) * (((s : ℝ) + (j : ℝ)) - 2024) ∧
    (0 < t → (s : ℝ) + (j : ℝ) < 2024 →
      (calculate_temperature_increase_per_year t s e)[j] < 0) ∧
    ((s : ℝ) + (j : ℝ) = 2024 → (calculate_temperature_increase_per_year t s e)[j] = 0) := by
  have hform : (calculate_temperature_increase_per_year t s e)[j] =
      t / (2100 - 2024) * (((s : ℝ) + (j : ℝ)) - 2024) := by
    simp [calculate_temperature_increase_per_year, pythonRange]
    try push_cast
    try ring
  refine ⟨hform, ?_, ?_⟩
  · intro ht hlt
    rw [hform]
    apply mul_neg_of_pos_of_neg
    · apply div_pos ht
      norm_num
    · linarith
  · intro heq
    rw [hform, heq]
    norm_num

/-- Witness for C4: scenario temperature 1.5, years 2020-2030, index 0:
the first ramp entry is `1.5/76 * (2020 - 2024)`, which is negative. -/
theorem claim_C4_witness :
    0 < (calculate_temperature_increase_per_year 1.5 2020 2030).length ∧
    (calculate_temperature_increase_per_year 1.5 2020 2030).getD 0 0 = 1.5 / 76 * (-4) ∧
    (calculate_temperature_increase_per_year 1.5 2020 2030).getD 0 0 < 0 := by
  have h : 0 < (calculate_temperature_increase_per_year 1.5 2020 2030).length := by
    rw [calculate_temperature_length]; norm_num
  obtain ⟨h1, h2, -⟩ := claim_C4 1.5 2020 2030 0 h
  refine ⟨h, ?_, ?_⟩
  · rw [List.getD_eq_getElem _ _ h, h1]
    norm_num
  · rw [List.getD_eq_getElem _ _ h]
    apply h2
    · norm_num
    · norm_num

/-- Claim C8: for every valid request (`startYear ≤ endYear`) whose projection
succeeds, the returned `selected_years` has length `endYear - startYear + 1`
and is the contiguous ascending integer sequence starting at `startYear`. -/
theorem claim_C8 (o rc pc gc : String) (s e : ℤ) (cp r0 a : ℝ) (r : ProjectionResult)
    (hse : s ≤ e)
    (hr : calculate_additional_outcomes_and_costs o rc pc gc (s, e) cp r0 a = some r) :
    (r.selected_years.length : ℤ) = e - s + 1 ∧
    ∀ j (h : j < r.selected_years.length), r.selected_years[j] = s + (j : ℤ) := by
  obtain ⟨p, t, pg, pr, -, -, -, -, hreq⟩ := (calculate_eq_some_iff o rc pc gc (s, e) cp r0 a r).mp hr
  subst hreq
  constructor
  · rw [projectCore_years_length]
    omega
  · intro j h
    exact pythonRange_getElem s (e + 1) j h

/-- Witness for C8 at the preview's default request: seven years, with the
year at index 2 equal to 2026. -/
theorem claim_C8_witness :
    (2024 : ℤ) ≤ 2030 ∧
    (((projectCore pretermProfile 1.5 0.02 0.02 (2024, 2030)
        7000000000 0.02 50).selected_years.length : ℤ) = 2030 - 2024 + 1 ∧
      (projectCore pretermProfile 1.5 0.02 0.02 (2024, 2030)
        7000000000 0.02 50).selected_years.getD 2 0 = 2024 + (2 : ℕ)) := by
  have hse : (2024 : ℤ) ≤ 2030 := by norm_num
  have hr : calculate_additional_outcomes_and_costs "Preterm Birth" "RCP 2.6" "Medium Growth"
      "Medium Growth" (2024, 2030) 7000000000 0.02 50 =
      some (projectCore pretermProfile 1.5 0.02 0.02 (2024, 2030) 7000000000 0.02 50) := rfl
  obtain ⟨h1, h2⟩ := claim_C8 "Preterm Birth" "RCP 2.6" "Medium Growth" "Medium Growth"
    2024 2030 7000000000 0.02 50 _ hse hr
  have hlen : 2 < (projectCore pretermProfile 1.5 0.02 0.02 ((2024 : ℤ), (2030 : ℤ))
      7000000000 0.02 50).selected_years.length := by
    rw [projectCore_years_length]
    norm_num
  refine ⟨hse, h1, ?_⟩
  rw [List.getD_eq_getElem _ _ hlen]
  exact h2 2 hlen

/-- Claim C10: for every successful projection run, the eight returned series
(years, effective outcomes, costs, uncapped additional outcomes, lower/upper
effective bounds, lower/upper cost bounds) all have the same length as the
years sequence. -/
theorem claim_C10 (o rc pc gc : String) (s e : ℤ) (cp r0 a : ℝ) (r : ProjectionResult)
    (hr : calculate_additional_outcomes_and_costs o rc pc gc (s, e) cp r0 a = some r) :
    r.effective_additional_outcomes.length = r.selected_years.length ∧
    r.costs.length = r.selected_years.length ∧
    r.additional_outcomes.length = r.selected_years.length ∧
    r.effective_additional_outcomes_lower.length = r.selected_years.length ∧
    r.effective_additional_outcomes_upper.length = r.selected_years.length ∧
    r.costs_lower.length = r.selected_years.length ∧
    r.costs_upper.length = r.selected_years.length := by
  obtain ⟨p, t, pg, pr, -, -, -, -, hreq⟩ :=
    (calculate_eq_some_iff o rc pc gc (s, e) cp r0 a r).mp hr
  subst hreq
  rw [projectCore_years_length]
  refine ⟨?_, ?_, ?_, ?_, ?_, ?_, ?_⟩ <;>
    simp [projectCore_effective_eq, projectCore_costs_eq, projectCore_lower_eq,
      projectCore_upper_eq, projectCore_costs_lower_eq, projectCore_costs_upper_eq,
      projectCore_additional_length]

/-- Witness for C10 at the preview's default request. -/
theorem claim_C10_witness :
    (projectCore pretermProfile 1.5 0.02 0.02 (2024, 2030)
        7000000000 0.02 50).effective_additional_outcomes.length =
      (projectCore pretermProfile 1.5 0.02 0.02 (2024, 2030)
        7000000000 0.02 50).selected_years.length ∧
    (projectCore pretermProfile 1.5 0.02 0.02 (2024, 2030)
        7000000000 0.02 50).costs.length =
      (projectCore pretermProfile 1.5 0.02 0.02 (2024, 2030)
        7000000000 0.02 50).selected_years.length ∧
    (projectCore pretermProfile 1.5 0.02 0.02 (2024, 2030)
        7000000000 0.02 50).additional_outcomes.length =
      (projectCore pretermProfile 1.5 0.02 0.02 (2024, 2030)
        7000000000 0.02 50).selected_years.length ∧
    (projectCore pretermProfile 1.5 0.02 0.02 (2024, 2030)
        7000000000 0.02 50).effective_additional_outcomes_lower.length =
      (projectCore pretermProfile 1.5 0.02 0.02 (2024, 2030)
        7000000000 0.02 50).selected_years.length ∧
    (projectCore pretermProfile 1.5 0.02 0.02 (2024, 2030)
        7000000000 0.02 50).effective_additional_outcomes_upper.length =
      (projectCore pretermProfile 1.5 0.02 0.02 (2024, 2030)
        7000000000 0.02 50).selected_years.length ∧
    (projectCore pretermProfile 1.5 0.02 0.02 (2024, 2030)
        7000000000 0.02 50).costs_lower.length =
      (projectCore pretermProfile 1.5 0.02 0.02 (2024, 2030)
        7000000000 0.02 50).selected_years.length ∧
    (projectCore pretermProfile 1.5 0.02 0.02 (2024, 2030)
        7000000000 0.02 50).costs_upper.length =
      (projectCore pretermProfile 1.5 0.02 0.02 (2024, 2030)
        7000000000 0.02 50).selected_years.length :=
  claim_C10 "Preterm Birth" "RCP 2.6" "Medium Growth" "Medium Growth" 2024 2030
    7000000000 0.02 50 _ rfl

/-- Claim C5: a lookup of an outcome, climate-scenario, population-growth or
pregnancy-growth name that is not a key of the corresponding table fails (the
Python dict raises `KeyError`, modelled as `none`), and a projection run using
such a name propagates the failure and produces no result — never a default
or zeroed profile. -/
theorem claim_C5 (o rc pc gc : String) (tp : ℤ × ℤ) (cp r0 a : ℝ)
    (h : List.lookup o mnch_outcomes = none ∨ List.lookup rc rcp_scenarios = none ∨
      List.lookup pc population_growth_rates = none ∨
      List.lookup gc pregnancy_growth_rates = none) :
    calculate_additional_outcomes_and_costs o rc pc gc tp cp r0 a = none := by
  cases h1 : List.lookup o mnch_outcomes <;>
    cases h2 : List.lookup rc rcp_scenarios <;>
      cases h3 : List.lookup pc population_growth_rates <;>
        cases h4 : List.lookup gc pregnancy_growth_rates <;>
          simp [calculate_additional_outcomes_and_costs, h1, h2, h3, h4]
  all_goals simp [h1, h2, h3, h4] at h

/-- Witness for C5: the name `Not A Real Outcome` is absent from the outcome
table and the projection run with it returns no result. -/
theorem claim_C5_witness :
    List.lookup "Not A Real Outcome" mnch_outcomes = none ∧
    calculate_additional_outcomes_and_costs "Not A Real Outcome" "RCP 2.6" "Medium Growth"
      "Medium Growth" (2024, 2030) 7000000000 0.02 50 = none :=
  ⟨rfl, claim_C5 "Not A Real Outcome" "RCP 2.6" "Medium Growth" "Medium Growth"
    (2024, 2030) 7000000000 0.02 50 (Or.inl rfl)⟩

/-- Counterexample to claim C2: for the request with `startYear = 2030`,
`endYear = 2024` (span `-5 < 1`) the code does not fail — it returns a
result, whose year list is empty.  There is no `InvalidRangeError` anywhere
in the source. -/
theorem claim_C2_counterexample :
    calculate_additional_outcomes_and_costs "Preterm Birth" "RCP 2.6" "Medium Growth"
      "Medium Growth" (2030, 2024) 7000000000 0.02 50 =
      some (projectCore pretermProfile 1.5 0.02 0.02 (2030, 2024) 7000000000 0.02 50) ∧
    (projectCore pretermProfile 1.5 0.02 0.02 (2030, 2024)
      7000000000 0.02 50).selected_years = [] := by
  constructor
  · rfl
  · rfl

/-- Claim C2 amended: for every request with `endYear < startYear` whose
lookups succeed, the projection returns a result (no error is raised) and
all eight of its series are empty. -/
theorem claim_C2_amended (o rc pc gc : String) (s e : ℤ) (cp r0 a : ℝ) (r : ProjectionResult)
    (he : e < s)
    (hr : calculate_additional_outcomes_and_costs o rc pc gc (s, e) cp r0 a = some r) :
    r.selected_years = [] ∧ r.effective_additional_outcomes = [] ∧ r.costs = [] ∧
    r.additional_outcomes = [] ∧ r.effective_additional_outcomes_lower = [] ∧
    r.effective_additional_outcomes_upper = [] ∧ r.costs_lower = [] ∧ r.costs_upper = [] := by
  obtain ⟨p, t, pg, pr, -, -, -, -, hreq⟩ :=
    (calculate_eq_some_iff o rc pc gc (s, e) cp r0 a r).mp hr
  subst hreq
  have h0 : (projectCore p t pg pr (s, e) cp r0 a).additional_outcomes.length = 0 := by
    rw [projectCore_additional_length]
    omega
  have hy : (projectCore p t pg pr (s, e) cp r0 a).selected_years.length = 0 := by
    rw [projectCore_years_length]
    omega
  refine ⟨List.length_eq_zero.mp hy, ?_, ?_, List.length_eq_zero.mp h0, ?_, ?_, ?_, ?_⟩ <;>
    (apply List.length_eq_zero.mp
     simp [projectCore_effective_eq, projectCore_costs_eq, projectCore_lower_eq,
       projectCore_upper_eq, projectCore_costs_lower_eq, projectCore_costs_upper_eq, h0])

/-- Witness for the amended C2 at the concrete inverted range (2030, 2024). -/
theorem claim_C2_amended_witness :
    (2024 : ℤ) < 2030 ∧
    (projectCore pretermProfile 1.5 0.02 0.02 (2030, 2024)
      7000000000 0.02 50).selected_years = [] ∧
    (projectCore pretermProfile 1.5 0.02 0.02 (2030, 2024)
      7000000000 0.02 50).effective_additional_outcomes = [] ∧
    (projectCore pretermProfile 1.5 0.02 0.02 (2030, 2024)
      7000000000 0.02 50).costs = [] := by
  have he : (2024 : ℤ) < 2030 := by norm_num
  obtain ⟨h1, h2, h3, -⟩ := claim_C2_amended "Preterm Birth" "RCP 2.6" "Medium Growth"
    "Medium Growth" 2030 2024 7000000000 0.02 50
    (projectCore pretermProfile 1.5 0.02 0.02 (2030, 2024) 7000000000 0.02 50) he rfl
  exact ⟨he, h1, h2, h3⟩

theorem projectCore_effective_length (p : OutcomeProfile) (t pg pr : ℝ) (s e : ℤ)
    (cp r0 a : ℝ) :
    (projectCore p t pg pr (s, e) cp r0 a).effective_additional_outcomes.length =
      (e - s + 1).toNat := by
  rw [projectCore_effective_eq, List.length_map, projectCore_additional_length]

theorem projectCore_effective_getElem (p : OutcomeProfile) (t pg pr : ℝ) (s e : ℤ)
    (cp r0 a : ℝ) (j : ℕ)
    (hj : j < (projectCore p t pg pr (s, e) cp r0 a).effective_additional_outcomes.length) :
    (projectCore p t pg pr (s, e) cp r0 a).effective_additional_outcomes[j] =
      (p.current_rate * p.odds_ratio ^ (t / (2100 - 2024) * (((s : ℝ) + (j : ℝ)) - 2024)) *
          (cp * (1 + pg) ^ j * (r0 * (1 + pr))) -
        cp * (1 + pg) ^ j * (r0 * (1 + pr)) * p.current_rate) * (1 - a / 100) := by
  have hja : j < (projectCore p t pg pr (s, e) cp r0 a).additional_outcomes.length := by
    rw [projectCore_additional_length]
    rw [projectCore_effective_length] at hj
    exact hj
  simp only [projectCore_effective_eq, List.getElem_map]
  rw [projectCore_additional_getElem p t pg pr s e cp r0 a j hja]

theorem projectCore_lower_length (p : OutcomeProfile) (t pg pr : ℝ) (s e : ℤ)
    (cp r0 a : ℝ) :
    (projectCore p t pg pr (s, e) cp r0 a).effective_additional_outcomes_lower.length =
      (e - s + 1).toNat := by
  rw [projectCore_lower_eq, List.length_map, projectCore_additional_length]

theorem projectCore_upper_length (p : OutcomeProfile) (t pg pr : ℝ) (s e : ℤ)
    (cp r0 a : ℝ) :
    (projectCore p t pg pr (s, e) cp r0 a).effective_additional_outcomes_upper.length =
      (e - s + 1).toNat := by
  rw [projectCore_upper_eq, List.length_map, projectCore_additional_length]

theorem projectCore_lower_getElem (p : OutcomeProfile) (t pg pr : ℝ) (s e : ℤ)
    (cp r0 a : ℝ) (j : ℕ)
    (hj : j <
      (projectCore p t pg pr (s, e) cp r0 a).effective_additional_outcomes_lower.length)
    (hje : j <
      (projectCore p t pg pr (s, e) cp r0 a).effective_additional_outcomes.length) :
    (projectCore p t pg pr (s, e) cp r0 a).effective_additional_outcomes_lower[j] =
      (projectCore p t pg pr (s, e) cp r0 a).effective_additional_outcomes[j] *
        p.ci_lower / p.odds_ratio := by
  simp only [projectCore_lower_eq, projectCore_effective_eq, List.getElem_map]

theorem projectCore_upper_getElem (p : OutcomeProfile) (t pg pr : ℝ) (s e : ℤ)
    (cp r0 a : ℝ) (j : ℕ)
    (hj : j <
      (projectCore p t pg pr (s, e) cp r0 a).effective_additional_outcomes_upper.length)
    (hje : j <
      (projectCore p t pg pr (s, e) cp r0 a).effective_additional_outcomes.length) :
    (projectCore p t pg pr (s, e) cp r0 a).effective_additional_outcomes_upper[j] =
      (projectCore p t pg pr (s, e) cp r0 a).effective_additional_outcomes[j] *
        p.ci_upper / p.odds_ratio := by
  simp only [projectCore_upper_eq, projectCore_effective_eq, List.getElem_map]

/-- Claim C6: holding every other input of a projection run fixed, for every
year index `j` the magnitude of the adaptation-adjusted excess
`|effective[j]|` is monotonically non-increasing in `adaptationEffectiveness`
on `[0, 100]`; at `100` the value is exactly `0`, and at `0` it equals the
uncapped `additionalOutcomes[j]` unchanged. -/
theorem claim_C6 (p : OutcomeProfile) (t pg pr : ℝ) (s e : ℤ) (cp r0 a1 a2 : ℝ)
    (_ha0 : 0 ≤ a1) (ha12 : a1 ≤ a2) (ha100 : a2 ≤ 100) (j : ℕ)
    (hj1 : j < (projectCore p t pg pr (s, e) cp r0 a1).effective_additional_outcomes.length)
    (hj2 : j < (projectCore p t pg pr (s, e) cp r0 a2).effective_additional_outcomes.length)
    (hjh : j < (projectCore p t pg pr (s, e) cp r0 100).effective_additional_outcomes.length)
    (hjz : j < (projectCore p t pg pr (s, e) cp r0 0).effective_additional_outcomes.length)
    (hja : j < (projectCore p t pg pr (s, e) cp r0 0).additional_outcomes.length) :
    |(projectCore p t pg pr (s, e) cp r0 a2).effective_additional_outcomes[j]| ≤
      |(projectCore p t pg pr (s, e) cp r0 a1).effective_additional_outcomes[j]| ∧
    (projectCore p t pg pr (s, e) cp r0 100).effective_additional_outcomes[j] = 0 ∧
    (projectCore p t pg pr (s, e) cp r0 0).effective_additional_outcomes[j] =
      (projectCore p t pg pr (s, e) cp r0 0).additional_outcomes[j] := by
  rw [projectCore_effective_getElem p t pg pr s e cp r0 a2 j hj2,
    projectCore_effective_getElem p t pg pr s e cp r0 a1 j hj1,
    projectCore_effective_getElem p t pg pr s e cp r0 100 j hjh,
    projectCore_effective_getElem p t pg pr s e cp r0 0 j hjz,
    projectCore_additional_getElem p t pg pr s e cp r0 0 j hja]
  refine ⟨?_, by norm_num, by norm_num⟩
  rw [abs_mul, abs_mul]
  apply mul_le_mul_of_nonneg_left ?_ (abs_nonneg _)
  rw [abs_of_nonneg (by linarith), abs_of_nonneg (by linarith)]
  linarith

/-- Witness for C6 at the preview's default inputs, adaptation 25 versus 50,
year index 1. -/
theorem claim_C6_witness :
    (0 : ℝ) ≤ 25 ∧ (25 : ℝ) ≤ 50 ∧ (50 : ℝ) ≤ 100 ∧
    |(projectCore pretermProfile 1.5 0.02 0.02 (2024, 2030)
        7000000000 0.02 50).effective_additional_outcomes.getD 1 0| ≤
      |(projectCore pretermProfile 1.5 0.02 0.02 (2024, 2030)
        7000000000 0.02 25).effective_additional_outcomes.getD 1 0| ∧
    (projectCore pretermProfile 1.5 0.02 0.02 (2024, 2030)
        7000000000 0.02 100).effective_additional_outcomes.getD 1 0 = 0 ∧
    (projectCore pretermProfile 1.5 0.02 0.02 (2024, 2030)
        7000000000 0.02 0).effective_additional_outcomes.getD 1 0 =
      (projectCore pretermProfile 1.5 0.02 0.02 (2024, 2030)
        7000000000 0.02 0).additional_outcomes.getD 1 0 := by
  have hj1 : 1 < (projectCore pretermProfile 1.5 0.02 0.02 ((2024 : ℤ), (2030 : ℤ))
      7000000000 0.02 25).effective_additional_outcomes.length := by
    rw [projectCore_effective_length]; norm_num
  have hj2 : 1 < (projectCore pretermProfile 1.5 0.02 0.02 ((2024 : ℤ), (2030 : ℤ))
      7000000000 0.02 50).effective_additional_outcomes.length := by
    rw [projectCore_effective_length]; norm_num
  have hjh : 1 < (projectCore pretermProfile 1.5 0.02 0.02 ((2024 : ℤ), (2030 : ℤ))
      7000000000 0.02 100).effective_additional_outcomes.length := by
    rw [projectCore_effective_length]; norm_num
  have hjz : 1 < (projectCore pretermProfile 1.5 0.02 0.02 ((2024 : ℤ), (2030 : ℤ))
      7000000000 0.02 0).effective_additional_outcomes.length := by
    rw [projectCore_effective_length]; norm_num
  have hja : 1 < (projectCore pretermProfile 1.5 0.02 0.02 ((2024 : ℤ), (2030 : ℤ))
      7000000000 0.02 0).additional_outcomes.length := by
    rw [projectCore_additional_length]; norm_num
  obtain ⟨h1, h2, h3⟩ := claim_C6 pretermProfile 1.5 0.02 0.02 2024 2030 7000000000 0.02
    25 50 (by norm_num) (by norm_num) (by norm_num) 1 hj1 hj2 hjh hjz hja
  rw [List.getD_eq_getElem _ _ hj1, List.getD_eq_getElem _ _ hj2,
    List.getD_eq_getElem _ _ hjh, List.getD_eq_getElem _ _ hjz,
    List.getD_eq_getElem _ _ hja]
  exact ⟨by norm_num, by norm_num, by norm_num, h1, h2, h3⟩

/-- Claim C7: for every year of a projection run, whenever
`ciLower ≤ oddsRatio ≤ ciUpper` (with `oddsRatio > 0`) and `effective[j] ≥ 0`,
the confidence-bounded series satisfy
`effectiveLower[j] ≤ effective[j] ≤ effectiveUpper[j]`, where
`effectiveLower[j] = effective[j] * ciLower / oddsRatio` and
`effectiveUpper[j] = effective[j] * ciUpper / oddsRatio`. -/
theorem claim_C7 (p : OutcomeProfile) (t pg pr : ℝ) (s e : ℤ) (cp r0 a : ℝ) (j : ℕ)
    (hcl : p.ci_lower ≤ p.odds_ratio) (hcu : p.odds_ratio ≤ p.ci_upper)
    (hor : 0 < p.odds_ratio)
    (hjl : j <
      (projectCore p t pg pr (s, e) cp r0 a).effective_additional_outcomes_lower.length)
    (hju : j <
      (projectCore p t pg pr (s, e) cp r0 a).effective_additional_outcomes_upper.length)
    (hje : j < (projectCore p t pg pr (s, e) cp r0 a).effective_additional_outcomes.length)
    (heff : 0 ≤ (projectCore p t pg pr (s, e) cp r0 a).effective_additional_outcomes[j]) :
    (projectCore p t pg pr (s, e) cp r0 a).effective_additional_outcomes_lower[j] =
      (projectCore p t pg pr (s, e) cp r0 a).effective_additional_outcomes[j] *
        p.ci_lower / p.odds_ratio ∧
    (projectCore p t pg pr (s, e) cp r0 a).effective_additional_outcomes_upper[j] =
      (projectCore p t pg pr (s, e) cp r0 a).effective_additional_outcomes[j] *
        p.ci_upper / p.odds_ratio ∧
    (projectCore p t pg pr (s, e) cp r0 a).effective_additional_outcomes_lower[j] ≤
      (projectCore p t pg pr (s, e) cp r0 a).effective_additional_outcomes[j] ∧
    (projectCore p t pg pr (s, e) cp r0 a).effective_additional_outcomes[j] ≤
      (projectCore p t pg pr (s, e) cp r0 a).effective_additional_outcomes_upper[j] := by
  have hl := projectCore_lower_getElem p t pg pr s e cp r0 a j hjl hje
  have hu := projectCore_upper_getElem p t pg pr s e cp r0 a j hju hje
  refine ⟨hl, hu, ?_, ?_⟩
  · rw [hl, mul_div_assoc]
    have h1 : p.ci_lower / p.odds_ratio ≤ 1 := (div_le_one hor).mpr hcl
    have h2 := mul_le_mul_of_nonneg_left h1 heff
    simpa using h2
  · rw [hu, mul_div_assoc]
    have h1 : (1 : ℝ) ≤ p.ci_upper / p.odds_ratio := (one_le_div hor).mpr hcu
    have h2 := mul_le_mul_of_nonneg_left h1 heff
    simpa using h2

/-- Witness for C7 at the preview's default inputs, year index 0 (where the
temperature ramp is zero, so the effective excess is 0 and nonnegative). -/
theorem claim_C7_witness :
    pretermProfile.ci_lower ≤ pretermProfile.odds_ratio ∧
    pretermProfile.odds_ratio ≤ pretermProfile.ci_upper ∧
    0 < pretermProfile.odds_ratio ∧
    0 ≤ (projectCore pretermProfile 1.5 0.02 0.02 (2024, 2030)
      7000000000 0.02 50).effective_additional_outcomes.getD 0 0 ∧
    (projectCore pretermProfile 1.5 0.02 0.02 (2024, 2030)
        7000000000 0.02 50).effective_additional_outcomes_lower.getD 0 0 ≤
      (projectCore pretermProfile 1.5 0.02 0.02 (2024, 2030)
        7000000000 0.02 50).effective_additional_outcomes.getD 0 0 ∧
    (projectCore pretermProfile 1.5 0.02 0.02 (2024, 2030)
        7000000000 0.02 50).effective_additional_outcomes.getD 0 0 ≤
      (projectCore pretermProfile 1.5 0.02 0.02 (2024, 2030)
        7000000000 0.02 50).effective_additional_outcomes_upper.getD 0 0 := by
  have hje : 0 < (projectCore pretermProfile 1.5 0.02 0.02 ((2024 : ℤ), (2030 : ℤ))
      7000000000 0.02 50).effective_additional_outcomes.length := by
    rw [projectCore_effective_length]; norm_num
  have hjl : 0 < (projectCore pretermProfile 1.5 0.02 0.02 ((2024 : ℤ), (2030 : ℤ))
      7000000000 0.02 50).effective_additional_outcomes_lower.length := by
    rw [projectCore_lower_length]; norm_num
  have hju : 0 < (projectCore pretermProfile 1.5 0.02 0.02 ((2024 : ℤ), (2030 : ℤ))
      7000000000 0.02 50).effective_additional_outcomes_upper.length := by
    rw [projectCore_upper_length]; norm_num
  have heff : (0 : ℝ) ≤ (projectCore pretermProfile 1.5 0.02 0.02 ((2024 : ℤ), (2030 : ℤ))
      7000000000 0.02 50).effective_additional_outcomes[0] := by
    rw [projectCore_effective_getElem pretermProfile 1.5 0.02 0.02 2024 2030
      7000000000 0.02 50 0 hje]
    norm_num [Real.rpow_zero]
    ring_nf
    norm_num [pretermProfile]
  obtain ⟨-, -, h3, h4⟩ := claim_C7 pretermProfile 1.5 0.02 0.02 2024 2030 7000000000 0.02 50 0
    (by norm_num [pretermProfile]) (by norm_num [pretermProfile]) (by norm_num [pretermProfile])
    hjl hju hje heff
  rw [List.getD_eq_getElem _ _ hje, List.getD_eq_getElem _ _ hjl, List.getD_eq_getElem _ _ hju]
  exact ⟨by norm_num [pretermProfile], by norm_num [pretermProfile],
    by norm_num [pretermProfile], heff, h3, h4⟩

/-- Counterexample to claim C1: at the preview's defaults (adaptation 50),
the comparator's `mitigation_prevented` at year index 1 is NOT the difference
of the two uncapped `additional_outcomes` series: the selected-scenario
operand is the adaptation-adjusted `effective` series, which differs from the
uncapped one because year 2025 has a strictly positive excess halved by the
50% adaptation. -/
theorem claim_C1_counterexample :
    (compare_scenarios "Preterm Birth" "RCP 2.6" "Medium Growth" "Medium Growth"
        (2024, 2030) 7000000000 0.02 50).map ComparisonResult.mitigation_prevented =
      some (((projectCore pretermProfile 4.3 0.02 0.02 (2024, 2030)
          7000000000 0.02 0).additional_outcomes.zip
        (projectCore pretermProfile 1.5 0.02 0.02 (2024, 2030)
          7000000000 0.02 50).effective_additional_outcomes).map (fun ws => ws.1 - ws.2)) ∧
    ¬ ((((projectCore pretermProfile 4.3 0.02 0.02 (2024, 2030)
          7000000000 0.02 0).additional_outcomes.zip
        (projectCore pretermProfile 1.5 0.02 0.02 (2024, 2030)
          7000000000 0.02 50).effective_additional_outcomes).map
            (fun ws => ws.1 - ws.2)).getD 1 0 =
        (projectCore pretermProfile 4.3 0.02 0.02 (2024, 2030)
          7000000000 0.02 0).additional_outcomes.getD 1 0 -
        (projectCore pretermProfile 1.5 0.02 0.02 (2024, 2030)
          7000000000 0.02 50).additional_outcomes.getD 1 0) := by
  have hjW : 1 < (projectCore pretermProfile 4.3 0.02 0.02 ((2024 : ℤ), (2030 : ℤ))
      7000000000 0.02 0).additional_outcomes.length := by
    rw [projectCore_additional_length]; norm_num
  have hjS : 1 < (projectCore pretermProfile 1.5 0.02 0.02 ((2024 : ℤ), (2030 : ℤ))
      7000000000 0.02 50).additional_outcomes.length := by
    rw [projectCore_additional_length]; norm_num
  have hjSe : 1 < (projectCore pretermProfile 1.5 0.02 0.02 ((2024 : ℤ), (2030 : ℤ))
      7000000000 0.02 50).effective_additional_outcomes.length := by
    rw [projectCore_effective_length]; norm_num
  have hjzip : 1 < (((projectCore pretermProfile 4.3 0.02 0.02 ((2024 : ℤ), (2030 : ℤ))
        7000000000 0.02 0).additional_outcomes.zip
      (projectCore pretermProfile 1.5 0.02 0.02 ((2024 : ℤ), (2030 : ℤ))
        7000000000 0.02 50).effective_additional_outcomes).map
          (fun (ws : ℝ × ℝ) => ws.1 - ws.2)).length := by
    rw [List.length_map, List.length_zip, projectCore_additional_length,
      projectCore_effective_length]
    norm_num
  constructor
  · rfl
  · rw [List.getD_eq_getElem _ _ hjzip, List.getD_eq_getElem _ _ hjW,
      List.getD_eq_getElem _ _ hjS]
    simp only [List.getElem_map, List.getElem_zip]
    rw [projectCore_effective_getElem pretermProfile 1.5 0.02 0.02 2024 2030
        7000000000 0.02 50 1 hjSe,
      projectCore_additional_getElem pretermProfile 1.5 0.02 0.02 2024 2030
        7000000000 0.02 50 1 hjS]
    have hpow : 1 < (1.04 : ℝ) ^
        (1.5 / (2100 - 2024) * ((((2024 : ℤ) : ℝ) + ((1 : ℕ) : ℝ)) - 2024)) := by
      rw [Real.one_lt_rpow_iff_of_pos (by norm_num)]
      left
      constructor
      · norm_num
      · norm_num
    intro h
    simp only [pretermProfile] at h hpow
    nlinarith [h, hpow]

/-- Claim C1 amended: for every comparison run, `mitigation_prevented[i]` is
`worstCaseAdditionalOutcomes[i] - selectedEffectiveOutcomes[i]` and
`adaptation_prevented[i]` is
`zeroAdaptationEffectiveOutcomes[i] - selectedEffectiveOutcomes[i]`: the
worst-case operand is indeed that run's uncapped `additional_outcomes`
series, but the selected-scenario operand is the adaptation-adjusted
`effective` series (not the uncapped one); the zero-adaptation operand is
that run's `effective` series, which coincides with its uncapped series
because that run uses adaptation 0 (third conjunct). -/
theorem claim_C1_amended (o rc pc gc : String) (tp : ℤ × ℤ) (cp r0 a : ℝ)
    (C : ComparisonResult) (S W Z : ProjectionResult)
    (hC : compare_scenarios o rc pc gc tp cp r0 a = some C)
    (hS : calculate_additional_outcomes_and_costs o rc pc gc tp cp r0 a = some S)
    (hW : calculate_additional_outcomes_and_costs o "RCP 8.5" pc gc tp cp r0 0 = some W)
    (hZ : calculate_additional_outcomes_and_costs o rc pc gc tp cp r0 0 = some Z) :
    C.mitigation_prevented =
      (W.additional_outcomes.zip S.effective_additional_outcomes).map
        (fun ws => ws.1 - ws.2) ∧
    C.adaptation_prevented =
      (Z.effective_additional_outcomes.zip S.effective_additional_outcomes).map
        (fun zs => zs.1 - zs.2) ∧
    Z.effective_additional_outcomes = Z.additional_outcomes := by
  rw [compare_scenarios, hS, hW, hZ] at hC
  simp only [Option.bind_eq_bind, Option.some_bind, Option.pure_def,
    Option.some.injEq] at hC
  subst hC
  refine ⟨rfl, rfl, ?_⟩
  obtain ⟨p, t, pg, pr, -, -, -, -, hz⟩ :=
    (calculate_eq_some_iff o rc pc gc tp cp r0 0 Z).mp hZ
  subst hz
  rw [projectCore_effective_eq]
  norm_num

/-- Witness for the amended C1 at the preview's default comparison run. -/
theorem claim_C1_amended_witness :
    compare_scenarios "Preterm Birth" "RCP 2.6" "Medium Growth" "Medium Growth"
        (2024, 2030) 7000000000 0.02 50 =
      some ⟨((projectCore pretermProfile 4.3 0.02 0.02 (2024, 2030)
              7000000000 0.02 0).costs.zip
            (projectCore pretermProfile 1.5 0.02 0.02 (2024, 2030)
              7000000000 0.02 50).costs).map (fun wc => wc.1 - wc.2),
            ((projectCore pretermProfile 1.5 0.02 0.02 (2024, 2030)
              7000000000 0.02 0).costs.zip
            (projectCore pretermProfile 1.5 0.02 0.02 (2024, 2030)
              7000000000 0.02 50).costs).map (fun zc => zc.1 - zc.2),
            ((projectCore pretermProfile 4.3 0.02 0.02 (2024, 2030)
              7000000000 0.02 0).additional_outcomes.zip
            (projectCore pretermProfile 1.5 0.02 0.02 (2024, 2030)
              7000000000 0.02 50).effective_additional_outcomes).map
              (fun ws => ws.1 - ws.2),
            ((projectCore pretermProfile 1.5 0.02 0.02 (2024, 2030)
              7000000000 0.02 0).effective_additional_outcomes.zip
            (projectCore pretermProfile 1.5 0.02 0.02 (2024, 2030)
              7000000000 0.02 50).effective_additional_outcomes).map
              (fun zs => zs.1 - zs.2)⟩ ∧
    (projectCore pretermProfile 1.5 0.02 0.02 (2024, 2030)
        7000000000 0.02 0).effective_additional_outcomes =
      (projectCore pretermProfile 1.5 0.02 0.02 (2024, 2030)
        7000000000 0.02 0).additional_outcomes := by
  refine ⟨rfl, ?_⟩
  exact (claim_C1_amended "Preterm Birth" "RCP 2.6" "Medium Growth" "Medium Growth"
    (2024, 2030) 7000000000 0.02 50 _
    (projectCore pretermProfile 1.5 0.02 0.02 (2024, 2030) 7000000000 0.02 50)
    (projectCore pretermProfile 4.3 0.02 0.02 (2024, 2030) 7000000000 0.02 0)
    (projectCore pretermProfile 1.5 0.02 0.02 (2024, 2030) 7000000000 0.02 0)
    rfl rfl rfl rfl).2.2

theorem roundHalfEven_sub_abs_le (x : ℝ) : |(roundHalfEven x : ℝ) - x| ≤ 1 / 2 := by
  have hadd := Int.floor_add_fract x
  have h0 := Int.fract_nonneg x
  have h1 := Int.fract_lt_one x
  rw [roundHalfEven]
  split_ifs with hlt heq hev
  · rw [abs_le]
    constructor <;> linarith
  · rw [abs_le]
    constructor <;> linarith
  · push_cast
    rw [abs_le]
    constructor <;> linarith
  · push_cast
    rw [abs_le]
    constructor <;> linarith

theorem pyRound2_sub_abs_le (x : ℝ) : |pyRound2 x - x| ≤ 1 / 200 := by
  have h := roundHalfEven_sub_abs_le (x * 100)
  rw [pyRound2]
  have heq : (roundHalfEven (x * 100) : ℝ) / 100 - x =
      ((roundHalfEven (x * 100) : ℝ) - x * 100) / 100 := by ring
  rw [heq, abs_div]
  rw [abs_of_nonneg (by norm_num : (0 : ℝ) ≤ 100)]
  rw [div_le_iff₀ (by norm_num : (0 : ℝ) < 100)]
  linarith

theorem roundHalfEven_point_one : roundHalfEven (0.1 : ℝ) = 0 := by
  have hfr : Int.fract (0.1 : ℝ) = 0.1 := by
    rw [Int.fract_eq_self]
    constructor <;> norm_num
  have hfl : ⌊(0.1 : ℝ)⌋ = 0 := by
    rw [Int.floor_eq_zero_iff]
    constructor <;> norm_num
  rw [roundHalfEven, hfr, if_pos (by norm_num : (0.1 : ℝ) < 1 / 2), hfl]

/-- Counterexample to claim C9: the code rounds `totalCost` to 2 decimal
places (source line 159: `round(sum(costs), 2)`), so `totalCost` is NOT the
unrounded `sum(cost)`: a single cost entry of `0.001` sums to `0.001` but
yields a `totalCost` of `0`. -/
theorem claim_C9_counterexample :
    (summarize ⟨[], [], [0.001], [], [], [], [], []⟩ ⟨[], [], [], []⟩ 1.04).total_cost = 0 ∧
    List.sum [(0.001 : ℝ)] = 0.001 ∧
    (summarize ⟨[], [], [0.001], [], [], [], [], []⟩ ⟨[], [], [], []⟩ 1.04).total_cost ≠
      List.sum [(0.001 : ℝ)] := by
  have hsum : List.sum [(0.001 : ℝ)] = 0.001 := by
    simp
  have harg : (0.001 : ℝ) * 100 = 0.1 := by norm_num
  have htc : (summarize (ProjectionResult.mk [] [] [0.001] [] [] [] [] [])
      (ComparisonResult.mk [] [] [] []) 1.04).total_cost = 0 := by
    show pyRound2 (List.sum [(0.001 : ℝ)]) = 0
    rw [hsum, pyRound2, harg, roundHalfEven_point_one]
    norm_num
  refine ⟨htc, hsum, ?_⟩
  rw [htc, hsum]
  norm_num

/-- Claim C9 amended: the Summary Aggregator computes
`totalAdditionalOutcomes = round(sum(effective))`,
`totalMitigationPrevented = round(sum(mitigationPrevented))`,
`totalAdaptationPrevented = round(sum(adaptationPrevented))` (nearest
integer, half to even) and
`attributableFraction = (oddsRatio - 1) / oddsRatio`, as claimed; but
`totalCost`, `totalMitigationSavings` and `totalAdaptationSavings` are the
respective sums ROUNDED TO 2 DECIMAL PLACES (within 1/200 of the exact sum),
not the raw sums.  Intermediate series are not rounded — rounding happens
only in this final reduction. -/
theorem claim_C9_amended (r : ProjectionResult) (c : ComparisonResult) (odds_ratio : ℝ) :
    (summarize r c odds_ratio).total_additional_outcomes =
      roundHalfEven r.effective_additional_outcomes.sum ∧
    |((summarize r c odds_ratio).total_additional_outcomes : ℝ) -
      r.effective_additional_outcomes.sum| ≤ 1 / 2 ∧
    (summarize r c odds_ratio).total_cost = pyRound2 r.costs.sum ∧
    |(summarize r c odds_ratio).total_cost - r.costs.sum| ≤ 1 / 200 ∧
    (summarize r c odds_ratio).total_mitigation_savings = pyRound2 c.mitigation_savings.sum ∧
    |(summarize r c odds_ratio).total_mitigation_savings - c.mitigation_savings.sum| ≤ 1 / 200 ∧
    (summarize r c odds_ratio).total_adaptation_savings = pyRound2 c.adaptation_savings.sum ∧
    |(summarize r c odds_ratio).total_adaptation_savings - c.adaptation_savings.sum| ≤ 1 / 200 ∧
    (summarize r c odds_ratio).total_mitigation_prevented =
      roundHalfEven c.mitigation_prevented.sum ∧
    (summarize r c odds_ratio).total_adaptation_prevented =
      roundHalfEven c.adaptation_prevented.sum ∧
    (summarize r c odds_ratio).attrib_frac = (odds_ratio - 1) / odds_ratio :=
  ⟨rfl, roundHalfEven_sub_abs_le _, rfl, pyRound2_sub_abs_le _, rfl, pyRound2_sub_abs_le _,
    rfl, pyRound2_sub_abs_le _, rfl, rfl, rfl⟩
